import Mathlib

/-!
Shallow embedding of `src/supervisor_alert.py` (supervisor-alert), a
Supervisor event-listener that forwards process state-transition events to an
alert backend (`telegram-send` or an arbitrary user command).

Modelling conventions:
  * Python strings are Lean `String`s; the Python string methods used by the
    source (`str.split`, `str.split(sep)`, `str.startswith`, slicing,
    `str.lower`) are re-implemented below by structural recursion on the
    character list, so that every definition evaluates in the kernel.
  * Python dicts built by `supervisor.childutils.get_headers` are association
    lists with last-binding-wins lookup (matching `dict(...)` semantics).
  * Exceptions are explicit: a computation that can raise returns `PyResult`;
    the main-loop turn records an uncaught exception as `ack = none`
    (the process dies before acknowledging).
  * `subprocess.check_call` is modelled by an oracle
    `env : List String → CallResult` giving, for each argv, whether the call
    exits 0 (`exit0`), exits nonzero (raises `CalledProcessError`,
    `nonzeroExit`), or cannot find the binary (raises `OSError`, `notFound`).
  * `listener.wait` / `listener.ok` / `listener.fail` come from the external
    `supervisor.childutils` library: `wait` writes one READY token and returns
    the parsed headers and payload; `ok`/`fail` write exactly one result
    token. They are modelled by the `Signal` trace of a turn.
-/

/-- Python `str.split()` helper: accumulate the current token (reversed) while
scanning, emitting a token at every whitespace boundary. -/
def splitWsAux : List Char → List Char → List String
  | [], acc => if acc.isEmpty then [] else [⟨acc.reverse⟩]
  | c :: cs, acc =>
    if c.isWhitespace then
      (if acc.isEmpty then [] else [⟨acc.reverse⟩]) ++ splitWsAux cs []
    else splitWsAux cs (c :: acc)

/-- Python `str.split()` with no argument: split on runs of whitespace,
discarding empty tokens. -/
def pySplitWs (str : String) : List String := splitWsAux str.data []

/-- Python `str.split(sep)` helper for a one-character separator. -/
def splitCharAux (sep : Char) : List Char → List Char → List String
  | [], acc => [⟨acc.reverse⟩]
  | c :: cs, acc =>
    if c == sep then ⟨acc.reverse⟩ :: splitCharAux sep cs []
    else splitCharAux sep cs (c :: acc)

/-- Python `str.split(sep)` for a one-character separator: keeps empty
tokens, and `"".split(sep) = [""]`. -/
def pySplitChar (str : String) (sep : Char) : List String :=
  splitCharAux sep str.data []

/-- Helper for `str.startswith`. -/
def listStartsWith : List Char → List Char → Bool
  | _, [] => true
  | [], _ :: _ => false
  | c :: cs, p :: ps => c == p && listStartsWith cs ps

/-- Python `str.startswith(pre)`. -/
def pyStartsWith (str pre : String) : Bool := listStartsWith str.data pre.data

/-- Python slicing `str[n:]`. -/
def pyDrop (str : String) (n : Nat) : String := ⟨str.data.drop n⟩

/-- Python `str.lower()` (ASCII, as produced by supervisor event names). -/
def pyLower (str : String) : String := ⟨str.data.map Char.toLower⟩

/-- The Python exceptions that can escape the functions modelled here. -/
inductive PyExc
  | osError
  | calledProcessError
  | keyError
  | valueError
deriving DecidableEq, Repr

/-- Result of running a Python computation: a normal return value, or a
raised exception propagating past it. -/
inductive PyResult (α : Type)
  | ret (a : α)
  | raised (e : PyExc)
deriving DecidableEq, Repr

/-- Outcome of one `subprocess.check_call` invocation: the process exited
with status 0, exited with a nonzero status (`CalledProcessError`), or the
binary could not be executed (`OSError`). -/
inductive CallResult
  | exit0
  | nonzeroExit
  | notFound
deriving DecidableEq, Repr

/-- Last-binding-wins lookup in an association list, matching lookup in a
Python dict built from a list of key/value pairs. -/
def dictLookup (d : List (String × String)) (k : String) : Option String :=
  (d.reverse.find? (fun p => p.1 == k)).map (·.2)

/-- Python `tok.split(":")` succeeding with exactly two fields; any other
shape makes the enclosing `dict(...)` raise `ValueError`. -/
def splitKV (tok : String) : Option (String × String) :=
  match pySplitChar tok ':' with
  | [k, v] => some (k, v)
  | _ => none

/-- Embedding of `supervisor.childutils.get_headers`:
`dict([x.split(":") for x in line.split()])`. Returns `none` when some
whitespace-separated token does not split into exactly two fields
(Python raises `ValueError`). -/
def get_headers (line : String) : Option (List (String × String)) :=
  (pySplitWs line).mapM splitKV

/-- Source line 45: the state-transition event-name prefix `s`. -/
def s : String := "PROCESS_STATE_"

/-- Source line 28: fixed configuration arguments passed to telegram-send. -/
def telegram_conf_args : List String := ["--config", "/etc/telegram-send.conf"]

/-- Result of one dispatcher call: the argv of every `check_call` invocation
it attempted, in order, and its Python-level outcome. -/
structure DispatchResult where
  calls : List (List String)
  result : PyResult Bool
deriving DecidableEq, Repr

/-- Argv of the primary telegram-send invocation (source line 85). -/
def tgArgv (message : String) : List String :=
  ["telegram-send", message] ++ telegram_conf_args

/-- Argv of the fallback telegram-send invocation at the alternate
installation path `~/.local/bin/telegram-send` (source lines 88-89), with
`expanduser` resolved against `home`. -/
def fbArgv (home message : String) : List String :=
  [home ++ "/.local/bin/telegram-send", message] ++ telegram_conf_args

/-- Embedding of `telegram(message)` (source lines 82-92). The primary
`check_call` is tried first; `CalledProcessError` from it is caught and
returns `False`; `OSError` from it (command not found) runs the fallback
`check_call` inside the `except OSError` handler. Per Python semantics an
exception raised inside an `except` block is NOT caught by the remaining
handlers of the same `try`, so a `CalledProcessError` or `OSError` from the
fallback invocation propagates out of `telegram`. -/
def telegram (env : List String → CallResult) (home : String)
    (message : String) : DispatchResult :=
  match env (tgArgv message) with
  | CallResult.exit0 => ⟨[tgArgv message], PyResult.ret true⟩
  | CallResult.nonzeroExit => ⟨[tgArgv message], PyResult.ret false⟩
  | CallResult.notFound =>
    match env (fbArgv home message) with
    | CallResult.exit0 =>
        ⟨[tgArgv message, fbArgv home message], PyResult.ret true⟩
    | CallResult.nonzeroExit =>
        ⟨[tgArgv message, fbArgv home message],
         PyResult.raised PyExc.calledProcessError⟩
    | CallResult.notFound =>
        ⟨[tgArgv message, fbArgv home message],
         PyResult.raised PyExc.osError⟩

/-- Embedding of `send(command, message)` (source lines 95-101): runs
`check_call(command + [message])`, catching only `CalledProcessError`
(nonzero exit, returning `False`); an `OSError` (binary not found) is not
caught and propagates. -/
def send (env : List String → CallResult) (command : List String)
    (message : String) : DispatchResult :=
  match env (command ++ [message]) with
  | CallResult.exit0 => ⟨[command ++ [message]], PyResult.ret true⟩
  | CallResult.nonzeroExit => ⟨[command ++ [message]], PyResult.ret false⟩
  | CallResult.notFound =>
      ⟨[command ++ [message]], PyResult.raised PyExc.osError⟩

/-- The alert backend chosen once at startup. The external-command variant
stores the argv obtained from `shlex.split(args.command)`. -/
inductive Backend
  | telegramB
  | commandB (argv : List String)
deriving DecidableEq, Repr

/-- Embedding of the backend selection (source lines 49-54): `--telegram`
takes precedence; otherwise a truthy (non-empty) `--command` string is split
by `shlex.split` (passed in as `shlexSplit`, its definition living in the
Python standard library); otherwise `main` raises
`Exception("No command specified.")` before the protocol loop starts,
modelled by `none`. -/
def selectBackend (shlexSplit : String → List String) (tg : Bool)
    (command : Option String) : Option Backend :=
  if tg then some Backend.telegramB
  else
    match command with
    | some c =>
        if c == "" then none else some (Backend.commandB (shlexSplit c))
    | none => none

/-- Embedding of the exclusion-set construction (source lines 56-59): start
from the empty set; when `args.exclude` is truthy (present and non-empty),
add every comma-separated token unchanged. -/
def buildExcluded (exclude : Option String) : List String :=
  match exclude with
  | none => []
  | some e => if e == "" then [] else pySplitChar e ','

/-- The startup configuration consumed by the main loop. -/
structure Config where
  show_hostname : Bool
  hostname : String
  excluded : List String
deriving DecidableEq, Repr

/-- Observable output of one loop turn: the messages passed to the `alert`
callable (in order), and the acknowledgment written back — `none` when an
uncaught exception killed the process before line 76 was reached. -/
structure TurnOutput where
  dispatched : List String
  ack : Option Bool
deriving DecidableEq, Repr

/-- Process name extracted from the event payload: `get_headers(payload)`
followed by the `data["processname"]` lookup (source lines 68-69); `none`
when either step raises. -/
def decodeProcessName (payload : String) : Option String :=
  (get_headers payload).bind (fun d => dictLookup d "processname")

/-- Embedding of one iteration of the main loop body after `listener.wait`
returned (source lines 63-79), given the event name from the headers, the
payload, and the chosen `alert` callable (whose outcome may be a raised
exception). `ack = some true` models `listener.ok()`, `ack = some false`
models `listener.fail()`, `ack = none` models the loop dying on an uncaught
exception. -/
def processEvent (cfg : Config) (event_name payload : String)
    (alert : String → PyResult Bool) : TurnOutput :=
  if pyStartsWith event_name s then
    let state := pyLower (pyDrop event_name (s.data.length))
    match get_headers payload with
    | none => ⟨[], none⟩
    | some data =>
      match dictLookup data "processname" with
      | none => ⟨[], none⟩
      | some process_name =>
        let message := process_name ++ " has entered state " ++ state
        let message :=
          if cfg.show_hostname then cfg.hostname ++ ": " ++ message
          else message
        if process_name ∈ cfg.excluded then ⟨[], some true⟩
        else
          match alert message with
          | PyResult.ret b => ⟨[message], some b⟩
          | PyResult.raised _ => ⟨[message], none⟩
  else ⟨[], some true⟩

/-- Embedding of a full turn starting from the parsed headers:
`headers["eventname"]` (source line 63) raises `KeyError` when absent. -/
def processTurn (cfg : Config) (headers : List (String × String))
    (payload : String) (alert : String → PyResult Bool) : TurnOutput :=
  match dictLookup headers "eventname" with
  | none => ⟨[], none⟩
  | some event_name => processEvent cfg event_name payload alert

/-- Tokens written on the output control stream: the READY signal written by
`listener.wait`, and the two result signals written by `listener.ok` and
`listener.fail`. -/
inductive Signal
  | ready
  | resultOK
  | resultFAIL
deriving DecidableEq, Repr

/-- The result signal chosen from the turn's `success` boolean
(source lines 76-79). -/
def ackSignal (success : Bool) : Signal :=
  if success then Signal.resultOK else Signal.resultFAIL

/-- Control-stream trace of one turn: READY, then the single result signal —
unless the turn died on an uncaught exception, in which case no result
signal is ever written. -/
def turnSignals (t : TurnOutput) : List Signal :=
  match t.ack with
  | some b => [Signal.ready, ackSignal b]
  | none => [Signal.ready]

/-- Control-stream trace of the main loop over a list of incoming events
(each a parsed header block plus payload): turns run in order until one dies
on an uncaught exception, which ends the process. -/
def runLoop (cfg : Config) (alert : String → PyResult Bool) :
    List (List (String × String) × String) → List Signal
  | [] => []
  | e :: es =>
    match (processTurn cfg e.1 e.2 alert).ack with
    | some b => Signal.ready :: ackSignal b :: runLoop cfg alert es
    | none => [Signal.ready]

/-! Theorems about the embedded program. -/

/-- C3: for every event whose `eventname` header does not start with
`PROCESS_STATE_`, the dispatcher is never invoked and the engine
acknowledges OK. -/
theorem C3_non_transition_no_dispatch_ok (cfg : Config)
    (event_name payload : String) (alert : String → PyResult Bool)
    (h : pyStartsWith event_name s = false) :
    processEvent cfg event_name payload alert = ⟨[], some true⟩ := by
  simp [processEvent, h]

/-- Witness for C3 at a concrete non-transition event (`TICK_60`), with an
alert callable that would raise if it were ever invoked. -/
theorem C3_witness :
    pyStartsWith "TICK_60" s = false ∧
    processEvent ⟨false, "h0", []⟩ "TICK_60" "when:12345"
      (fun _ => PyResult.raised PyExc.osError) = ⟨[], some true⟩ :=
  ⟨by decide, C3_non_transition_no_dispatch_ok _ _ _ _ (by decide)⟩

/-- C4: for every decoded state-transition event whose process name is in
the exclusion set, the dispatcher is never invoked and the engine
acknowledges OK. -/
theorem C4_excluded_no_dispatch_ok (cfg : Config)
    (event_name payload p : String) (alert : String → PyResult Bool)
    (h1 : pyStartsWith event_name s = true)
    (h2 : decodeProcessName payload = some p)
    (h3 : p ∈ cfg.excluded) :
    processEvent cfg event_name payload alert = ⟨[], some true⟩ := by
  simp only [decodeProcessName] at h2
  obtain ⟨d, hd, hp⟩ := Option.bind_eq_some.mp h2
  simp [processEvent, h1, hd, hp, h3]

/-- Witness for C4: process `webapp` is excluded, the alert callable would
raise if invoked, and the turn still ends in OK with no dispatch. -/
theorem C4_witness :
    pyStartsWith "PROCESS_STATE_EXITED" s = true ∧
    decodeProcessName "processname:webapp pid:42 from_state:RUNNING" = some "webapp" ∧
    "webapp" ∈ (Config.mk false "h0" ["webapp", "db"]).excluded ∧
    processEvent ⟨false, "h0", ["webapp", "db"]⟩ "PROCESS_STATE_EXITED"
      "processname:webapp pid:42 from_state:RUNNING"
      (fun _ => PyResult.raised PyExc.osError) = ⟨[], some true⟩ :=
  ⟨by decide, by decide, by decide,
   C4_excluded_no_dispatch_ok ⟨false, "h0", ["webapp", "db"]⟩
     "PROCESS_STATE_EXITED" "processname:webapp pid:42 from_state:RUNNING"
     "webapp" (fun _ => PyResult.raised PyExc.osError)
     (by decide) (by decide) (by decide)⟩

/-- C5: for every decoded state-transition event that is not excluded, the
message handed to the dispatcher is `"{process} has entered state {state}"`
with the state the `eventname` minus the `PROCESS_STATE_` prefix,
lowercased, and with `"{hostname}: "` prepended exactly when the hostname
flag is set. -/
theorem C5_message_format (cfg : Config) (event_name payload p : String)
    (alert : String → PyResult Bool)
    (h1 : pyStartsWith event_name s = true)
    (h2 : decodeProcessName payload = some p)
    (h3 : p ∉ cfg.excluded) :
    (processEvent cfg event_name payload alert).dispatched =
      [if cfg.show_hostname then
         cfg.hostname ++ ": " ++
           (p ++ " has entered state " ++ pyLower (pyDrop event_name s.data.length))
       else
         p ++ " has entered state " ++ pyLower (pyDrop event_name s.data.length)] := by
  simp only [decodeProcessName] at h2
  obtain ⟨d, hd, hp⟩ := Option.bind_eq_some.mp h2
  simp only [processEvent, h1, hd, hp, h3, if_true, if_false]
  split <;> simp

/-- Witness for C5: the end-to-end scenario from the specification —
`eventname=PROCESS_STATE_EXITED`, payload
`processname:webapp pid:42 from_state:RUNNING`, no exclusions, hostname
flag off — dispatches exactly `"webapp has entered state exited"`. -/
theorem C5_witness :
    pyStartsWith "PROCESS_STATE_EXITED" s = true ∧
    decodeProcessName "processname:webapp pid:42 from_state:RUNNING" = some "webapp" ∧
    "webapp" ∉ (Config.mk false "h0" []).excluded ∧
    (processEvent ⟨false, "h0", []⟩ "PROCESS_STATE_EXITED"
      "processname:webapp pid:42 from_state:RUNNING"
      (fun _ => PyResult.ret true)).dispatched =
      [if (Config.mk false "h0" []).show_hostname then
         "h0" ++ ": " ++
           ("webapp" ++ " has entered state " ++ pyLower (pyDrop "PROCESS_STATE_EXITED" s.data.length))
       else
         "webapp" ++ " has entered state " ++ pyLower (pyDrop "PROCESS_STATE_EXITED" s.data.length)] :=
  ⟨by decide, by decide, by decide,
   C5_message_format ⟨false, "h0", []⟩ "PROCESS_STATE_EXITED"
     "processname:webapp pid:42 from_state:RUNNING" "webapp"
     (fun _ => PyResult.ret true) (by decide) (by decide) (by decide)⟩

/-- C9: backend selection precedence — `--telegram` wins over any
`--command` value, which is ignored for the whole process lifetime; with
neither flag the startup raises `Exception("No command specified.")`
(modelled by `none`) before the protocol loop begins. -/
theorem C9_backend_selection (shlexSplit : String → List String)
    (command : Option String) :
    selectBackend shlexSplit true command = some Backend.telegramB ∧
    selectBackend shlexSplit false none = none := by
  constructor <;> simp [selectBackend]

/-- C8 counterexample: a state-transition event whose payload does not parse
as key:value fields makes `get_headers` raise `ValueError` before any
dispatch; the turn dies with no acknowledgment at all, so the engine does
NOT acknowledge OK and the failure IS fatal to the process. -/
theorem C8_counterexample :
    (processEvent ⟨false, "h0", []⟩ "PROCESS_STATE_FATAL" "no_colon_payload"
      (fun _ => PyResult.ret true)).ack = none ∧
    (processEvent ⟨false, "h0", []⟩ "PROCESS_STATE_FATAL" "no_colon_payload"
      (fun _ => PyResult.ret true)).ack ≠ some true := by decide

/-- C8 amended: for every state-transition event whose payload fails to
decode (malformed key:value fields or a missing `processname` key), the
uncaught exception kills the loop before any dispatch attempt and before
any acknowledgment is written. -/
theorem C8_amended_decode_failure_fatal (cfg : Config)
    (event_name payload : String) (alert : String → PyResult Bool)
    (h1 : pyStartsWith event_name s = true)
    (h2 : decodeProcessName payload = none) :
    processEvent cfg event_name payload alert = ⟨[], none⟩ := by
  rcases hgh : get_headers payload with _ | d
  · simp [processEvent, h1, hgh]
  · simp only [decodeProcessName, hgh, Option.some_bind] at h2
    simp [processEvent, h1, hgh, h2]

/-- Witness for the amended C8 at the concrete payload `"pid 42"`, whose
tokens contain no colon. -/
theorem C8_amended_witness :
    pyStartsWith "PROCESS_STATE_STOPPED" s = true ∧
    decodeProcessName "pid 42" = none ∧
    processEvent ⟨true, "web1", ["x"]⟩ "PROCESS_STATE_STOPPED" "pid 42"
      (fun _ => PyResult.ret true) = ⟨[], none⟩ :=
  ⟨by decide, by decide,
   C8_amended_decode_failure_fatal ⟨true, "web1", ["x"]⟩
     "PROCESS_STATE_STOPPED" "pid 42" (fun _ => PyResult.ret true)
     (by decide) (by decide)⟩

/-- C2: the turn acknowledges OK exactly when the event was not a
state-transition, or the decoded process was excluded, or the dispatcher
was invoked and returned success; it acknowledges FAIL exactly when a
dispatch was attempted and returned failure. (A turn that dies on an
uncaught exception acknowledges nothing, satisfying both biconditionals.) -/
theorem C2_ack_characterization (cfg : Config) (event_name payload : String)
    (alert : String → PyResult Bool) :
    ((processEvent cfg event_name payload alert).ack = some true ↔
      pyStartsWith event_name s = false ∨
      (∃ p, decodeProcessName payload = some p ∧ p ∈ cfg.excluded) ∨
      (∃ m, m ∈ (processEvent cfg event_name payload alert).dispatched ∧
            alert m = PyResult.ret true)) ∧
    ((processEvent cfg event_name payload alert).ack = some false ↔
      ∃ m, m ∈ (processEvent cfg event_name payload alert).dispatched ∧
           alert m = PyResult.ret false) := by
  by_cases h1 : pyStartsWith event_name s = true
  · rcases hgh : get_headers payload with _ | d
    · simp [processEvent, decodeProcessName, h1, hgh]
    · rcases hpl : dictLookup d "processname" with _ | p
      · simp [processEvent, decodeProcessName, h1, hgh, hpl]
      · by_cases h3 : p ∈ cfg.excluded
        · simp [processEvent, decodeProcessName, h1, hgh, hpl, h3]
        · simp only [processEvent, decodeProcessName, h1, hgh, hpl, h3,
            if_true, if_false, ite_false, ite_true]
          split <;>
            simp_all [decodeProcessName, hgh, hpl, h3]
  · have h1f : pyStartsWith event_name s = false := by
      cases h : pyStartsWith event_name s
      · rfl
      · exact absurd h h1
    simp [processEvent, h1f]

/-- C1 counterexample: an event that is received, decodes fine and is not
excluded, but whose dispatch raises an uncaught exception (e.g. the
external-command binary is missing, an `OSError` that `send` does not
catch) produces ZERO result signals — the turn trace is just READY. -/
theorem C1_counterexample :
    turnSignals (processTurn ⟨false, "h0", []⟩
      [("eventname", "PROCESS_STATE_EXITED")]
      "processname:webapp pid:42 from_state:RUNNING"
      (fun _ => PyResult.raised PyExc.osError)) = [Signal.ready] ∧
    Signal.resultOK ∉ turnSignals (processTurn ⟨false, "h0", []⟩
      [("eventname", "PROCESS_STATE_EXITED")]
      "processname:webapp pid:42 from_state:RUNNING"
      (fun _ => PyResult.raised PyExc.osError)) ∧
    Signal.resultFAIL ∉ turnSignals (processTurn ⟨false, "h0", []⟩
      [("eventname", "PROCESS_STATE_EXITED")]
      "processname:webapp pid:42 from_state:RUNNING"
      (fun _ => PyResult.raised PyExc.osError)) := by decide

/-- C1 amended: for every run in which each received event completes its
turn without an uncaught exception (headers carry `eventname`, the payload
decodes when needed, and any attempted dispatch returns a boolean), the
loop trace is exactly one READY signal followed by exactly one result
signal per event, strictly alternating, never batched. -/
theorem C1_amended_one_result_per_event (cfg : Config)
    (alert : String → PyResult Bool)
    (events : List (List (String × String) × String))
    (h : ∀ e ∈ events, (processTurn cfg e.1 e.2 alert).ack.isSome = true) :
    runLoop cfg alert events =
      events.flatMap (fun e =>
        [Signal.ready,
         ackSignal (((processTurn cfg e.1 e.2 alert).ack).getD true)]) := by
  induction events with
  | nil => rfl
  | cons e es ih =>
    have he := h e (List.mem_cons_self e es)
    rcases ha : (processTurn cfg e.1 e.2 alert).ack with _ | b
    · rw [ha] at he
      simp at he
    · have hes := ih (fun x hx => h x (List.mem_cons_of_mem e hx))
      simp [runLoop, ha, hes]

/-- Witness for the amended C1: two concrete events (one non-transition,
one dispatched successfully) produce the strictly alternating trace
READY, OK, READY, OK. -/
theorem C1_amended_witness :
    runLoop ⟨false, "h0", []⟩ (fun _ => PyResult.ret true)
      [([("eventname", "TICK_5")], ""),
       ([("eventname", "PROCESS_STATE_EXITED")], "processname:webapp")] =
      [([("eventname", "TICK_5")], ""),
       ([("eventname", "PROCESS_STATE_EXITED")], "processname:webapp")].flatMap
        (fun e =>
          [Signal.ready,
           ackSignal (((processTurn ⟨false, "h0", []⟩ e.1 e.2
             (fun _ => PyResult.ret true)).ack).getD true)]) :=
  C1_amended_one_result_per_event ⟨false, "h0", []⟩ (fun _ => PyResult.ret true)
    [([("eventname", "TICK_5")], ""),
     ([("eventname", "PROCESS_STATE_EXITED")], "processname:webapp")]
    (by decide)

/-- C6 counterexample: in the external-command variant, a binary-not-found
`OSError` is not caught by `send` (which only catches
`CalledProcessError`), so it propagates past the dispatcher boundary
instead of being converted to a boolean — despite the claim's sole
carve-out being the chat-relay variant. -/
theorem C6_counterexample :
    (send (fun _ => CallResult.notFound) ["notify-cmd"] "m").result =
      PyResult.raised PyExc.osError ∧
    (send (fun _ => CallResult.notFound) ["notify-cmd"] "m").result ≠
      PyResult.ret true ∧
    (send (fun _ => CallResult.notFound) ["notify-cmd"] "m").result ≠
      PyResult.ret false := by decide

/-- C6 amended: exceptions escape the dispatcher boundary exactly when
(chat-relay variant) the primary binary is not found AND the single
fallback invocation does not exit 0 — `CalledProcessError` on a nonzero
fallback exit, `OSError` when the fallback is missing too — or
(external-command variant) the command binary is not found, which `send`
does not catch at all; every other subprocess outcome is converted to a
boolean. -/
theorem C6_amended_exception_boundary (env : List String → CallResult)
    (home : String) (command : List String) (message : String) :
    ((∃ e, (telegram env home message).result = PyResult.raised e) ↔
      env (tgArgv message) = CallResult.notFound ∧
      env (fbArgv home message) ≠ CallResult.exit0) ∧
    ((∃ e, (send env command message).result = PyResult.raised e) ↔
      env (command ++ [message]) = CallResult.notFound) := by
  constructor
  · cases h1 : env (tgArgv message) <;>
      cases h2 : env (fbArgv home message) <;>
        simp [telegram, h1, h2]
  · cases h3 : env (command ++ [message]) <;> simp [send, h3]

/-- C7 counterexample: when the primary telegram-send invocation raises
binary-not-found and the fallback binary is successfully located but exits
nonzero, the `CalledProcessError` raised inside the `except OSError`
handler propagates, so the dispatch does NOT yield `false`. -/
theorem C7_counterexample :
    (telegram
      (fun argv =>
        if argv = tgArgv "m" then CallResult.notFound
        else CallResult.nonzeroExit)
      "/home/alice" "m").result = PyResult.raised PyExc.calledProcessError ∧
    (telegram
      (fun argv =>
        if argv = tgArgv "m" then CallResult.notFound
        else CallResult.nonzeroExit)
      "/home/alice" "m").result ≠ PyResult.ret false := by decide

/-- C7 amended: exit status 0 yields `true` (for the primary chat-relay
invocation, the fallback invocation, and the external command); a nonzero
exit of the primary chat-relay invocation or of the external command
yields `false`, but a nonzero exit of the fallback raises
`CalledProcessError`; and primary binary-not-found triggers exactly one
fallback invocation at `~/.local/bin/telegram-send`, the only case in
which a second invocation is attempted. -/
theorem C7_amended_exit_status (env : List String → CallResult)
    (home : String) (command : List String) (message : String) :
    ((telegram env home message).result = PyResult.ret true ↔
      env (tgArgv message) = CallResult.exit0 ∨
      (env (tgArgv message) = CallResult.notFound ∧
       env (fbArgv home message) = CallResult.exit0)) ∧
    ((telegram env home message).result = PyResult.ret false ↔
      env (tgArgv message) = CallResult.nonzeroExit) ∧
    ((telegram env home message).result =
        PyResult.raised PyExc.calledProcessError ↔
      env (tgArgv message) = CallResult.notFound ∧
      env (fbArgv home message) = CallResult.nonzeroExit) ∧
    ((send env command message).result = PyResult.ret true ↔
      env (command ++ [message]) = CallResult.exit0) ∧
    ((send env command message).result = PyResult.ret false ↔
      env (command ++ [message]) = CallResult.nonzeroExit) ∧
    ((telegram env home message).calls =
      if env (tgArgv message) = CallResult.notFound then
        [tgArgv message, fbArgv home message]
      else [tgArgv message]) := by
  cases h1 : env (tgArgv message) <;>
    cases h2 : env (fbArgv home message) <;>
      cases h3 : env (command ++ [message]) <;>
        simp [telegram, send, h1, h2, h3]

/-- C10 counterexample: with `--exclude` supplied as the empty string, the
truthiness guard on source line 57 leaves the exclusion set empty, yet the
comma-separated tokens of `""` are `[""]`; a decoded process whose name is
the empty string (payload `processname:`) equals that token
character-for-character but is still dispatched. -/
theorem C10_counterexample :
    ("" ∈ pySplitChar "" ',') ∧
    buildExcluded (some "") = [] ∧
    (processEvent ⟨false, "h0", buildExcluded (some "")⟩
      "PROCESS_STATE_EXITED" "processname:"
      (fun _ => PyResult.ret true)).dispatched =
      [" has entered state exited"] := by decide

/-- C10 amended: for a non-empty `--exclude` argument the exclusion set is
exactly its comma-separated tokens, with no whitespace trimming or case
folding, and a decoded transition is suppressed (nothing dispatched) if
and only if its process name is character-for-character equal to one of
those tokens; an absent or empty `--exclude` yields the empty exclusion
set. -/
theorem C10_amended_exclusion_semantics (ex : String) (sh : Bool)
    (hn event_name payload p : String) (alert : String → PyResult Bool)
    (h0 : ex ≠ "")
    (h1 : pyStartsWith event_name s = true)
    (h2 : decodeProcessName payload = some p) :
    buildExcluded (some ex) = pySplitChar ex ',' ∧
    buildExcluded none = [] ∧
    buildExcluded (some "") = [] ∧
    ((processEvent ⟨sh, hn, buildExcluded (some ex)⟩ event_name payload
        alert).dispatched = [] ↔ p ∈ pySplitChar ex ',') := by
  have hbe : buildExcluded (some ex) = pySplitChar ex ',' := by
    simp [buildExcluded, h0]
  refine ⟨hbe, rfl, by simp [buildExcluded], ?_⟩
  simp only [decodeProcessName] at h2
  obtain ⟨d, hd, hp⟩ := Option.bind_eq_some.mp h2
  rw [hbe]
  by_cases hmem : p ∈ pySplitChar ex ','
  · simp [processEvent, h1, hd, hp, hbe, hmem]
  · simp only [processEvent, h1, hd, hp, hbe, hmem, if_true, if_false,
      ite_true, ite_false]
    split <;> simp_all

/-- Witness for the amended C10: `--exclude "webapp, db"` yields exactly the
untrimmed tokens `["webapp", " db"]`, and the decoded process `webapp` is
suppressed because it equals the first token. -/
theorem C10_amended_witness :
    "webapp, db" ≠ "" ∧
    pyStartsWith "PROCESS_STATE_RUNNING" s = true ∧
    decodeProcessName "processname:webapp" = some "webapp" ∧
    (buildExcluded (some "webapp, db") = pySplitChar "webapp, db" ',' ∧
     buildExcluded none = [] ∧
     buildExcluded (some "") = [] ∧
     ((processEvent ⟨false, "h0", buildExcluded (some "webapp, db")⟩
         "PROCESS_STATE_RUNNING" "processname:webapp"
         (fun _ => PyResult.ret true)).dispatched = [] ↔
       "webapp" ∈ pySplitChar "webapp, db" ',')) :=
  ⟨by decide, by decide, by decide,
   C10_amended_exclusion_semantics "webapp, db" false "h0"
     "PROCESS_STATE_RUNNING" "processname:webapp" "webapp"
     (fun _ => PyResult.ret true) (by decide) (by decide) (by decide)⟩
